import Mathlib

/-!
Verification of the nrf52840-ble-led repository.

Part 1: the peripheral firmware (`src/firmware/examples/src/bin/ble_led.rs`),
a BLE peripheral driving four active-low LEDs from a one-byte GATT mask
characteristic.

Part 2: the host GUI worker (`src/gui/nrf52840_led_gui/src/main.rs`), a
worker loop that owns a BLE central adapter, processes Scan / Connect /
Disconnect / SetMask commands in order, and emits UI events.

Definitions (the embedding of the source) come first; theorems follow.
-/

namespace BleLed

/-- GPIO output level (`embassy_nrf::gpio::Level`). The nRF52840-DK LEDs are
active-low: a low pin level turns the LED on. -/
inductive Level
  | low
  | high
deriving DecidableEq, Repr

/-- An LED is lit exactly when its (active-low) pin is driven low. -/
def Level.isOn : Level → Bool
  | .low => true
  | .high => false

/-- The four LED output pins, as in `struct Leds` (P0.13..P0.16). -/
structure Leds where
  led1 : Level
  led2 : Level
  led3 : Level
  led4 : Level
deriving DecidableEq, Repr

/-- `Leds::new`: all pins start high (= all LEDs off). -/
def Leds.new : Leds := ⟨.high, .high, .high, .high⟩

/-- `Leds::all_off`: drive every pin high (active-low, so every LED off). -/
def Leds.all_off (_l : Leds) : Leds := ⟨.high, .high, .high, .high⟩

/-- `Leds::apply_mask`: bit i of the mask drives LED i+1; set bit = pin low
(LED on), clear bit = pin high (LED off). -/
def Leds.apply_mask (_l : Leds) (mask : Nat) : Leds :=
  ⟨if mask &&& 0x01 ≠ 0 then .low else .high,
   if mask &&& 0x02 ≠ 0 then .low else .high,
   if mask &&& 0x04 ≠ 0 then .low else .high,
   if mask &&& 0x08 ≠ 0 then .low else .high⟩

/-- Output `i` (0-based) of the LED bank, as an on/off observation. -/
def Leds.ledOn (l : Leds) : Nat → Bool
  | 0 => l.led1.isOn
  | 1 => l.led2.isOn
  | 2 => l.led3.isOn
  | 3 => l.led4.isOn
  | _ => false

/-- GATT server events dispatched by `gatt_server::run` (the `ServerEvent`
match in `main`). -/
inductive ServerEvent
  | basBatteryLevelCccdWrite (notifications : Bool)
  | ledMaskWrite (mask : Nat)
  | ledMaskCccdWrite (notifications : Bool)
deriving DecidableEq, Repr

/-- Log lines produced by the firmware event handler (`info!` / `warn!`). -/
inductive FwLog
  | batteryNotifications (b : Bool)
  | ledMaskWriteLog (mask : Nat)
  | notifyFailed (err : String)
  | ledNotifications (b : Bool)
deriving DecidableEq, Repr

/-- Observable side effects of the firmware event handler, in program order. -/
inductive FwAction
  | log (m : FwLog)
  | applyMaskCall (mask : Nat)
  | notifyCall (mask : Nat)
deriving DecidableEq, Repr

/-- Peripheral state: the LED bank plus the GATT attribute value of the mask
characteristic (the stack stores the written byte before dispatching the
write event to the application). -/
structure PeriphState where
  leds : Leds
  storedMask : Nat
deriving DecidableEq, Repr

/-- The event handler closure passed to `gatt_server::run` (ble_led.rs lines
178-199). `notifyRes` is the result of `led_mask_notify`; the call is made
after `apply_mask`, and a failure is logged (`warn!`) and otherwise ignored. -/
def handleServerEvent (st : PeriphState) (e : ServerEvent) (notifyRes : Except String Unit) :
    PeriphState × List FwAction :=
  match e with
  | .basBatteryLevelCccdWrite b => (st, [.log (.batteryNotifications b)])
  | .ledMaskWrite m =>
      let st' : PeriphState := { leds := st.leds.apply_mask m, storedMask := m }
      let acts : List FwAction := [.log (.ledMaskWriteLog m), .applyMaskCall m, .notifyCall m]
      match notifyRes with
      | .ok _ => (st', acts)
      | .error err => (st', acts ++ [.log (.notifyFailed err)])
  | .ledMaskCccdWrite b => (st, [.log (.ledNotifications b)])

/-- One connection: the stream of GATT events handled before the disconnect,
each paired with the outcome the stack reports for the notify attempt. -/
def Session := List (ServerEvent × Except String Unit)

/-- Folding the handler over one connection's events (`gatt_server::run`). -/
def runGattServer (st : PeriphState) : Session → PeriphState × List FwAction
  | [] => (st, [])
  | (e, r) :: rest =>
      let (st', a) := handleServerEvent st e r
      let (st'', a') := runGattServer st' rest
      (st'', a ++ a')

/-- Phase of the advertise-connect loop. -/
inductive Phase
  | advertising
  | connected
deriving DecidableEq, Repr

/-- Number of live connections in a phase: the loop holds exactly one `conn`
while `gatt_server::run` executes, none while advertising. -/
def Phase.activeConns : Phase → Nat
  | .advertising => 0
  | .connected => 1

/-- The advertise-connect loop (ble_led.rs lines 168-204): each iteration
advertises, serves one connection to completion, then runs `leds.all_off()`
before re-advertising. Each trace entry records the phase entered and the
LED/mask state at that point (the `connected` entry samples the state at
disconnect time). -/
def loopTrace (st : PeriphState) : List Session → List (Phase × PeriphState)
  | [] => [(.advertising, st)]
  | s :: rest =>
      let (stEnd, _) := runGattServer st s
      (.advertising, st) :: (.connected, stEnd) ::
        loopTrace { stEnd with leds := stEnd.leds.all_off } rest

/-- State at boot: `Leds::new` then `leds.all_off()` (ble_led.rs lines
116-117); the mask characteristic starts at 0. -/
def initPeriphState : PeriphState := { leds := Leds.new.all_off, storedMask := 0 }

def mainTrace (sessions : List Session) : List (Phase × PeriphState) :=
  loopTrace initPeriphState sessions

/-- The softdevice connection-related configuration compiled into `main`
(ble_led.rs lines 126-140). -/
structure BleGapConnCfg where
  conn_count : Nat
  event_length : Nat
deriving DecidableEq, Repr

structure BleGapRoleCountCfg where
  adv_set_count : Nat
  periph_role_count : Nat
  central_role_count : Nat
  central_sec_count : Nat
deriving DecidableEq, Repr

structure SdConfig where
  conn_gap : BleGapConnCfg
  gap_role_count : BleGapRoleCountCfg
deriving DecidableEq, Repr

def fwConfig : SdConfig :=
  { conn_gap := { conn_count := 6, event_length := 24 },
    gap_role_count :=
      { adv_set_count := 1, periph_role_count := 3, central_role_count := 3,
        central_sec_count := 0 } }

/-- Alternating phase pattern: one advertising entry per loop iteration, one
connected entry per session, ending ready to advertise. -/
def phasePattern : Nat → List Phase
  | 0 => [.advertising]
  | n + 1 => .advertising :: .connected :: phasePattern n

end BleLed

namespace Gui

/-- `struct DeviceInfo`: scan-result record. `rssi` is an `i16` in the source,
modelled as `Int`. -/
structure DeviceInfo where
  addr : String
  name : Option String
  rssi : Option Int
deriving DecidableEq, Repr

/-- The fields of `btleplug` peripheral properties consulted by
`collect_devices`. -/
structure PeripheralProperties where
  local_name : Option String
  rssi : Option Int
deriving DecidableEq, Repr

/-- A peripheral visible to the adapter after a scan: an opaque handle
(modelled as a `Nat` id), its `id().to_string()` address, and
`properties().await.ok().flatten()` (`none` both when the call fails and
when it returns no properties). -/
structure RawPeripheral where
  pid : Nat
  addr : String
  props : Option PeripheralProperties
deriving DecidableEq, Repr

/-- Rust `bool::cmp` (`false < true`). -/
def boolCmp : Bool → Bool → Ordering
  | false, false => .eq
  | false, true => .lt
  | true, false => .gt
  | true, true => .eq

/-- Rust integer `cmp`. -/
def intCmp (a b : Int) : Ordering :=
  if a < b then .lt else if b < a then .gt else .eq

/-- The comparator closure in `collect_devices` (main.rs lines 458-463):
`bn.cmp(&an).then_with(|| b.rssi.unwrap_or(-999).cmp(&a.rssi.unwrap_or(-999)))`. -/
def deviceCmp (a b : DeviceInfo) : Ordering :=
  (boolCmp b.name.isSome a.name.isSome).then
    (intCmp (b.rssi.getD (-999)) (a.rssi.getD (-999)))

/-- The "comes no later than" relation induced by the comparator: Rust
`sort_by` places `a` at or before `b` whenever the comparator does not return
`Greater` on `(a, b)`. -/
def scanLe (a b : DeviceInfo × Nat) : Prop := deviceCmp a.1 b.1 ≠ .gt

instance : DecidableRel scanLe := fun a b => by
  unfold scanLe
  infer_instance

/-- The unsorted device list built by the enumeration loop of
`collect_devices`, each `DeviceInfo` paired with its peripheral handle
(the source keeps two parallel vectors and zips them). -/
def scanInfos (peris : List RawPeripheral) : List (DeviceInfo × Nat) :=
  peris.map fun p =>
    ({ addr := p.addr, name := p.props.bind (·.local_name),
       rssi := p.props.bind (·.rssi) }, p.pid)

/-- `collect_devices`: enumerate, then sort with the comparator. Rust
`Vec::sort_by` is a stable sort; `List.insertionSort` is stable for the same
relation, and a stable sort's output is determined by the comparator, so this
is a faithful embedding of `zipped.sort_by(..)`. -/
def collect_devices (peris : List RawPeripheral) : List (DeviceInfo × Nat) :=
  (scanInfos peris).insertionSort scanLe

/-- Group rank used by the comparator: named devices first. -/
def specRank (d : DeviceInfo) : Nat := if d.name.isSome then 0 else 1

/-- Effective sort key for signal strength: the source substitutes −999 for a
missing RSSI (`unwrap_or(-999)`). -/
def effRssi (d : DeviceInfo) : Int := d.rssi.getD (-999)

/-- Concrete devices for the spec scenario: "AA" named at −40, "BB" unnamed
at −30. -/
def rawAA : RawPeripheral := ⟨0, "AA", some ⟨some "Tag", some (-40)⟩⟩

def rawBB : RawPeripheral := ⟨1, "BB", some ⟨none, some (-30)⟩⟩

/-- Modelled from the spec's words for the C2 claim only: the weakest possible
signal-strength value of the `i16` RSSI type. The code uses −999 instead. -/
def spec_weakest_possible_rssi : Int := -32768

/-- Modelled from the spec's words for the C2 claim: named devices strictly
first; within a group, higher signal strength first, a missing signal
strength read as the weakest possible value. -/
def spec_claim_le (a b : DeviceInfo) : Prop :=
  (b.name.isSome → a.name.isSome) ∧
  (a.name.isSome = b.name.isSome →
    b.rssi.getD spec_weakest_possible_rssi ≤ a.rssi.getD spec_weakest_possible_rssi)

instance (a b : DeviceInfo) : Decidable (spec_claim_le a b) := by
  unfold spec_claim_le
  infer_instance

def rawCexA : RawPeripheral := ⟨0, "AA", some ⟨none, some (-1000)⟩⟩

def rawCexB : RawPeripheral := ⟨1, "BB", some ⟨none, none⟩⟩

/-- The LED characteristic UUID compiled into the GUI. -/
def LED_CHAR_UUID : String := "9e7312e0-2354-11eb-9f10-fbc30a63cf38"

/-- The characteristic property flags consulted by the worker. -/
structure CharProps where
  write : Bool
  write_without_response : Bool
deriving DecidableEq, Repr

structure Characteristic where
  uuid : String
  properties : CharProps
deriving DecidableEq, Repr

/-- The log lines the worker can send (`UiMsg::Log` payloads), by content. -/
inductive LogMsg
  | workerStarted
  | scanning
  | connectRequested (addr : String)
  | notInLastScanList
  | ledCharNotFound
  | writeNotAdvertisedWarning
  | disconnecting
  | wroteMask (m : Nat)
  | writeFailed (e : String)
  | notConnectedIgnoringWrite
deriving DecidableEq, Repr

/-- `enum UiMsg`: worker-to-UI events. -/
inductive UiMsg
  | log (m : LogMsg)
  | scanResults (devs : List DeviceInfo)
  | connected (b : Bool)
deriving DecidableEq, Repr

/-- Calls the worker makes into the BLE stack. -/
inductive BleAction
  | startScanCall
  | enumeratePeripherals
  | connectCall (pid : Nat)
  | discoverServicesCall (pid : Nat)
  | disconnectCall (pid : Nat)
  | writeCall (pid : Nat) (ch : Characteristic) (data : List Nat) (withResponse : Bool)
deriving DecidableEq, Repr

/-- One observable step of the worker, in program order: either a UI event
sent on the channel or a call into the BLE stack. -/
inductive Obs
  | ev (e : UiMsg)
  | call (a : BleAction)
deriving DecidableEq, Repr

/-- Worker-owned state: the last scan result set (info paired with the
peripheral handle) and the at-most-one stored connection pair. -/
structure WorkerState where
  last_scan : List (DeviceInfo × Nat)
  connected : Option (Nat × Characteristic)
deriving DecidableEq, Repr

/-- `enum Cmd`: UI-to-worker commands. -/
inductive Cmd
  | scan
  | connectCmd (addr : String)
  | disconnectCmd
  | setMask (m : Nat)
deriving DecidableEq, Repr

/-- Results the BLE stack returns for the fallible operations one command can
perform, supplied as an oracle. -/
structure Oracle where
  startScanRes : Except String Unit
  peripheralsRes : Except String (List RawPeripheral)
  connectRes : Except String Unit
  discoverRes : Except String Unit
  characteristics : List Characteristic
  writeRes : Except String Unit

/-- One iteration of the worker loop (main.rs lines 366-436): process one
command, producing the observation trace and either the next state or the
error that makes `ble_worker` return (the `?` operator). -/
def step (o : Oracle) (st : WorkerState) : Cmd → List Obs × Except String WorkerState
  | .scan =>
    let t : List Obs := [.ev (.log .scanning), .call .startScanCall]
    match o.startScanRes with
    | .error e => (t, .error e)
    | .ok _ =>
      let t := t ++ [Obs.call .enumeratePeripherals]
      match o.peripheralsRes with
      | .error e => (t, .error e)
      | .ok peris =>
          let sorted := collect_devices peris
          (t ++ [Obs.ev (.scanResults (sorted.map Prod.fst))],
           .ok { st with last_scan := sorted })
  | .connectCmd addr =>
    let t : List Obs := [.ev (.log (.connectRequested addr))]
    match st.last_scan.find? (fun ip => ip.1.addr == addr) with
    | none => (t ++ [Obs.ev (.log .notInLastScanList)], .ok st)
    | some (_, pid) =>
      let t := t ++ [Obs.call (.connectCall pid)]
      match o.connectRes with
      | .error e => (t, .error e)
      | .ok _ =>
        let t := t ++ [Obs.call (.discoverServicesCall pid)]
        match o.discoverRes with
        | .error e => (t, .error e)
        | .ok _ =>
          match o.characteristics.find? (fun c => c.uuid == LED_CHAR_UUID) with
          | none =>
              (t ++ [Obs.ev (.log .ledCharNotFound), Obs.call (.disconnectCall pid),
                     Obs.ev (.connected false)], .ok st)
          | some ch =>
              let warn : List Obs :=
                if !(ch.properties.write || ch.properties.write_without_response)
                then [Obs.ev (.log .writeNotAdvertisedWarning)] else []
              (t ++ warn ++ [Obs.ev (.connected true)],
               .ok { st with connected := some (pid, ch) })
  | .disconnectCmd =>
    match st.connected with
    | some (pid, _) =>
        ([.ev (.log .disconnecting), .call (.disconnectCall pid), .ev (.connected false)],
         .ok { st with connected := none })
    | none => ([.ev (.connected false)], .ok st)
  | .setMask m =>
    match st.connected with
    | some (pid, ch) =>
      let t : List Obs := [.call (.writeCall pid ch [m] true)]
      match o.writeRes with
      | .ok _ => (t ++ [Obs.ev (.log (.wroteMask m))], .ok st)
      | .error e => (t ++ [Obs.ev (.log (.writeFailed e))], .ok st)
    | none => ([.ev (.log .notConnectedIgnoringWrite)], .ok st)

/-- The worker loop: commands processed strictly in order; the first command
whose operation errors makes the loop return that error, leaving the rest of
the queue unprocessed. -/
def runWorker (st : WorkerState) : List (Cmd × Oracle) → List Obs × Except String WorkerState
  | [] => ([], .ok st)
  | (c, o) :: rest =>
    let (t, r) := step o st c
    match r with
    | .error e => (t, .error e)
    | .ok st' =>
        let (t', r') := runWorker st' rest
        (t ++ t', r')

/-- UI events of a trace, in order. -/
def events (t : List Obs) : List UiMsg :=
  t.filterMap fun x => match x with | .ev e => some e | .call _ => none

/-- Log events of a trace, in order. -/
def logEvents (t : List Obs) : List LogMsg :=
  t.filterMap fun x => match x with | .ev (.log m) => some m | _ => none

/-- Lines in the UI log pane, by origin. -/
inductive UiLogLine
  | fromWorker (m : LogMsg)
  | scanSummary (count : Nat)
  | connectedLine
  | disconnectedLine
deriving DecidableEq, Repr

/-- UI-side state touched by the 50 ms poller (main.rs lines 277-320). -/
structure UiState where
  devices : List DeviceInfo
  connectedFlag : Bool
  controlsEnabled : Bool
  logPane : List UiLogLine
deriving DecidableEq, Repr

/-- The poller's handling of one received `UiMsg`: note that the
"Scan results: N device(s)" log line is appended here, by the UI, when it
consumes a `ScanResults` event. -/
def uiHandle (st : UiState) : UiMsg → UiState
  | .log m => { st with logPane := st.logPane ++ [.fromWorker m] }
  | .scanResults l =>
      { st with devices := l, logPane := st.logPane ++ [.scanSummary l.length] }
  | .connected b =>
      { st with connectedFlag := b, controlsEnabled := b,
                logPane := st.logPane ++
                  [if b then UiLogLine.connectedLine else UiLogLine.disconnectedLine] }

def chLed : Characteristic := ⟨LED_CHAR_UUID, ⟨true, false⟩⟩

def stConn : WorkerState := ⟨[], some (3, chLed)⟩

def okOracle : Oracle := ⟨.ok (), .ok [], .ok (), .ok (), [], .ok ()⟩

def chOther : Characteristic := ⟨"2a19", ⟨false, false⟩⟩

def devAA : DeviceInfo := ⟨"AA", some "Tag", some (-40)⟩

def stAlreadyConnected : WorkerState := ⟨[(devAA, 0)], some (7, chLed)⟩

def oracleNoLedChar : Oracle := ⟨.ok (), .ok [], .ok (), .ok (), [chOther], .ok ()⟩

def stEmpty : WorkerState := ⟨[], none⟩

def failingOracle : Oracle := ⟨.error "adapterGone", .ok [], .ok (), .ok (), [], .ok ()⟩

end Gui

/-! ## Theorems -/

namespace BleLed

theorem and_two_pow_ne_zero (m i : Nat) : (m &&& 2 ^ i ≠ 0) ↔ m.testBit i = true := by
  rw [Nat.and_two_pow]
  cases h : m.testBit i <;> simp [h]

theorem testBit_of_mod16 (m i : Nat) (hi : i < 4) : (m % 16).testBit i = m.testBit i := by
  have h16 : (16 : Nat) = 2 ^ 4 := rfl
  rw [h16, Nat.testBit_mod_two_pow]
  simp [hi]

theorem ite_bit_isOn (m k : Nat) :
    (if m &&& 2 ^ k ≠ 0 then Level.low else Level.high).isOn = m.testBit k := by
  by_cases h : m &&& 2 ^ k ≠ 0
  · rw [if_pos h, (and_two_pow_ne_zero m k).mp h]
    rfl
  · rw [if_neg h]
    have hb : m.testBit k = false := by
      cases hb : m.testBit k
      · rfl
      · exact absurd ((and_two_pow_ne_zero m k).mpr hb) h
    rw [hb]
    rfl

theorem apply_mask_ledOn (l : Leds) (m : Nat) (i : Nat) (hi : i < 4) :
    (l.apply_mask m).ledOn i = m.testBit i := by
  interval_cases i
  · exact ite_bit_isOn m 0
  · exact ite_bit_isOn m 1
  · exact ite_bit_isOn m 2
  · exact ite_bit_isOn m 3

theorem apply_mask_eq_of_mod16 (l : Leds) (m m' : Nat) (h : m % 16 = m' % 16) :
    l.apply_mask m = l.apply_mask m' := by
  have hb : ∀ k, k < 4 → ((m &&& 2 ^ k ≠ 0) ↔ (m' &&& 2 ^ k ≠ 0)) := by
    intro k hk
    have t : m.testBit k = m'.testBit k := by
      rw [← testBit_of_mod16 m k hk, h, testBit_of_mod16 m' k hk]
    rw [and_two_pow_ne_zero, and_two_pow_ne_zero, t]
  have h1 : (m &&& 1 ≠ 0) ↔ (m' &&& 1 ≠ 0) := hb 0 (by norm_num)
  have h2 : (m &&& 2 ≠ 0) ↔ (m' &&& 2 ≠ 0) := hb 1 (by norm_num)
  have h4 : (m &&& 4 ≠ 0) ↔ (m' &&& 4 ≠ 0) := hb 2 (by norm_num)
  have h8 : (m &&& 8 ≠ 0) ↔ (m' &&& 8 ≠ 0) := hb 3 (by norm_num)
  simp only [Leds.apply_mask, h1, h2, h4, h8]

/-- C1: for every 8-bit mask value m, `Leds::apply_mask` turns output i on iff
bit i of m is 1, for each i in 0..3, and bits 4..7 of m have no effect on any
output (masks agreeing modulo 16 give identical outputs). -/
theorem mask_applier_spec (l : Leds) (m : Nat) (hm : m < 256) :
    (∀ i, i < 4 → (l.apply_mask m).ledOn i = m.testBit i) ∧
    (∀ m', m' < 256 → m % 16 = m' % 16 → l.apply_mask m = l.apply_mask m') :=
  ⟨fun i hi => apply_mask_ledOn l m i hi, fun m' _ hmm => apply_mask_eq_of_mod16 l m m' hmm⟩

/-- Witness for C1 at mask 0x05: output 0 on, output 1 off, and adding high
bits (0xf5) changes nothing. -/
theorem mask_applier_spec_witness :
    (Leds.new.apply_mask 5).ledOn 0 = true ∧ (Leds.new.apply_mask 5).ledOn 1 = false ∧
    Leds.new.apply_mask 5 = Leds.new.apply_mask 245 := by
  have h := mask_applier_spec Leds.new 5 (by decide)
  refine ⟨?_, ?_, ?_⟩
  · rw [h.1 0 (by decide)]
    decide
  · rw [h.1 1 (by decide)]
    decide
  · exact h.2 245 (by decide) (by decide)

/-- C6: on every GATT write to the mask characteristic the handler invokes
the Mask Applier with the written byte, and the `applyMaskCall` precedes the
single `notifyCall` in the action trace; a notify failure only appends a
warning log — it is not retried, and the resulting LED state and stored mask
are the same as on success. -/
theorem gatt_write_spec (st : PeriphState) (m : Nat) (r : Except String Unit) :
    (handleServerEvent st (.ledMaskWrite m) r).1 =
      { leds := st.leds.apply_mask m, storedMask := m } ∧
    (r = .ok () →
      (handleServerEvent st (.ledMaskWrite m) r).2 =
        [.log (.ledMaskWriteLog m), .applyMaskCall m, .notifyCall m]) ∧
    (∀ err, r = .error err →
      (handleServerEvent st (.ledMaskWrite m) r).2 =
        [.log (.ledMaskWriteLog m), .applyMaskCall m, .notifyCall m,
         .log (.notifyFailed err)]) := by
  cases r with
  | ok u =>
      cases u
      refine ⟨rfl, fun _ => rfl, fun err h => ?_⟩
      simp at h
  | error err =>
      refine ⟨rfl, fun h => ?_, fun e h => ?_⟩
      · simp at h
      · cases h
        rfl

/-- Witness for C6: a write of 0x05 whose notify fails still applies the
mask, and the trace runs applyMask before notify. -/
theorem gatt_write_spec_witness :
    (handleServerEvent initPeriphState (.ledMaskWrite 5) (.error "notSubscribed")).1 =
      { leds := initPeriphState.leds.apply_mask 5, storedMask := 5 } ∧
    (handleServerEvent initPeriphState (.ledMaskWrite 5) (.error "notSubscribed")).2 =
      [.log (.ledMaskWriteLog 5), .applyMaskCall 5, .notifyCall 5,
       .log (.notifyFailed "notSubscribed")] :=
  ⟨(gatt_write_spec initPeriphState 5 (.error "notSubscribed")).1,
   (gatt_write_spec initPeriphState 5 (.error "notSubscribed")).2.2 "notSubscribed" rfl⟩

theorem loopTrace_adv_off (sessions : List Session) (st : PeriphState)
    (hst : st.leds = ⟨.high, .high, .high, .high⟩) :
    ∀ p ∈ loopTrace st sessions, p.1 = Phase.advertising →
      p.2.leds = ⟨.high, .high, .high, .high⟩ := by
  induction sessions generalizing st with
  | nil =>
      intro p hp _
      rw [loopTrace, List.mem_singleton] at hp
      subst hp
      exact hst
  | cons s rest ih =>
      intro p hp hadv
      rw [loopTrace] at hp
      rcases hr : runGattServer st s with ⟨stEnd, acts⟩
      rw [hr] at hp
      simp only [List.mem_cons] at hp
      rcases hp with h | h | h
      · subst h
        exact hst
      · subst h
        cases hadv
      · exact ih { stEnd with leds := stEnd.leds.all_off } rfl p h hadv

/-- C4: whenever a connection ends — whatever events the session carried and
whatever the last applied mask was — all four outputs are off at every entry
into the Advertising phase. -/
theorem disconnect_forces_all_off (sessions : List Session) (ph : Phase) (st : PeriphState)
    (h : (ph, st) ∈ mainTrace sessions) (hph : ph = Phase.advertising) :
    st.leds = ⟨.high, .high, .high, .high⟩ ∧ ∀ i, i < 4 → st.leds.ledOn i = false := by
  have hoff := loopTrace_adv_off sessions initPeriphState rfl (ph, st) h hph
  refine ⟨hoff, fun i hi => ?_⟩
  rw [hoff]
  interval_cases i <;> rfl

/-- Witness for C4: after a session that wrote mask 0x05, the re-advertising
entry of the trace has all outputs off. -/
theorem disconnect_forces_all_off_witness :
    (⟨⟨.high, .high, .high, .high⟩, 5⟩ : PeriphState).leds = ⟨.high, .high, .high, .high⟩ ∧
    (⟨⟨.high, .high, .high, .high⟩, 5⟩ : PeriphState).leds.ledOn 0 = false :=
  ⟨(disconnect_forces_all_off [[(.ledMaskWrite 5, .ok ())]] .advertising
      ⟨⟨.high, .high, .high, .high⟩, 5⟩ (by decide) rfl).1,
   (disconnect_forces_all_off [[(.ledMaskWrite 5, .ok ())]] .advertising
      ⟨⟨.high, .high, .high, .high⟩, 5⟩ (by decide) rfl).2 0 (by decide)⟩

/-- C9 counterexample: the connection-count configuration compiled into the
firmware does not limit the stack to a single connection — it allows 6 total
connections and 3 concurrent peripheral-role links. -/
theorem single_conn_config_counterexample :
    fwConfig.conn_gap.conn_count = 6 ∧ fwConfig.gap_role_count.periph_role_count = 3 ∧
    1 < fwConfig.conn_gap.conn_count ∧ 1 < fwConfig.gap_role_count.periph_role_count := by
  decide

theorem loopTrace_phases (sessions : List Session) (st : PeriphState) :
    (loopTrace st sessions).map Prod.fst = phasePattern sessions.length := by
  induction sessions generalizing st with
  | nil => rfl
  | cons s rest ih =>
      rw [loopTrace]
      rcases hr : runGattServer st s with ⟨stEnd, acts⟩
      simp only [List.map_cons, List.length_cons, phasePattern]
      rw [ih]

/-- C9 amended: the peripheral serves at most one connection at a time, but
this is enforced by the application's sequential advertise-serve loop (each
loop iteration accepts one connection and only re-advertises after it ends),
not by the compiled-in connection-count configuration, which permits 6
connections and 3 peripheral-role links. -/
theorem single_connection_spec (sessions : List Session) :
    (mainTrace sessions).map Prod.fst = phasePattern sessions.length ∧
    (∀ p ∈ mainTrace sessions, p.1.activeConns ≤ 1) ∧
    1 < fwConfig.conn_gap.conn_count ∧ 1 < fwConfig.gap_role_count.periph_role_count := by
  refine ⟨loopTrace_phases sessions initPeriphState, fun p _ => ?_, by decide, by decide⟩
  cases p.1 <;> decide

/-- Witness for C9: one session gives the phase pattern
advertising-connected-advertising. -/
theorem single_connection_spec_witness :
    (mainTrace [[(.ledMaskWrite 1, .ok ())]]).map Prod.fst = phasePattern 1 ∧
    Phase.activeConns .connected ≤ 1 := by
  have h := single_connection_spec [[(.ledMaskWrite 1, .ok ())]]
  refine ⟨h.1, ?_⟩
  exact h.2.1 (.connected, ⟨⟨.low, .high, .high, .high⟩, 1⟩) (by decide)

end BleLed

namespace Gui

theorem intCmp_ne_gt (x y : Int) : (intCmp x y ≠ .gt) ↔ x ≤ y := by
  unfold intCmp
  split_ifs with h1 h2
  · exact iff_of_true (by decide) (le_of_lt h1)
  · exact iff_of_false (by simp) (not_le.mpr h2)
  · exact iff_of_true (by decide) (by omega)

theorem scanLe_iff (a b : DeviceInfo × Nat) :
    scanLe a b ↔ (specRank a.1 < specRank b.1 ∨
      (specRank a.1 = specRank b.1 ∧ effRssi b.1 ≤ effRssi a.1)) := by
  unfold scanLe deviceCmp specRank effRssi
  cases ha : a.1.name.isSome <;> cases hb : b.1.name.isSome <;>
    simp only [ha, hb, boolCmp, Ordering.then, if_true, if_false]
  · rw [intCmp_ne_gt]
    simp
  · simp
  · simp
  · rw [intCmp_ne_gt]
    simp

theorem scanLe_total : ∀ a b, scanLe a b ∨ scanLe b a := by
  intro a b
  rw [scanLe_iff, scanLe_iff]
  omega

theorem scanLe_trans : ∀ a b c, scanLe a b → scanLe b c → scanLe a c := by
  intro a b c hab hbc
  rw [scanLe_iff] at hab hbc ⊢
  omega

/-- C2 amended: the sorted list is a permutation of the enumerated one; every
named device comes before every unnamed one; within each group effective
signal strength (with −999 substituted for a missing RSSI) is descending; and
comparator ties keep their original enumeration order. -/
theorem scan_sort_spec (peris : List RawPeripheral) :
    (collect_devices peris).Perm (scanInfos peris) ∧
    (collect_devices peris).Pairwise (fun a b =>
      (b.1.name.isSome → a.1.name.isSome) ∧
      (a.1.name.isSome = b.1.name.isSome → effRssi b.1 ≤ effRssi a.1)) ∧
    (∀ x y, deviceCmp x.1 y.1 = .eq → List.Sublist [x, y] (scanInfos peris) →
      List.Sublist [x, y] (collect_devices peris)) := by
  refine ⟨List.perm_insertionSort scanLe _, ?_, ?_⟩
  · haveI : IsTotal (DeviceInfo × Nat) scanLe := ⟨scanLe_total⟩
    haveI : IsTrans (DeviceInfo × Nat) scanLe := ⟨scanLe_trans⟩
    have hs := List.sorted_insertionSort scanLe (scanInfos peris)
    refine List.Pairwise.imp ?_ hs
    intro a b hab
    rw [scanLe_iff] at hab
    constructor
    · intro hbn
      by_contra han
      rw [Bool.not_eq_true] at han
      unfold specRank at hab
      rw [hbn, han] at hab
      simp at hab
    · intro heq
      unfold specRank at hab
      rw [heq] at hab
      rcases hab with h | h
      · exact absurd h (lt_irrefl _)
      · exact h.2
  · intro x y hxy hsub
    refine List.sublist_insertionSort ?_ hsub
    refine List.pairwise_pair.mpr ?_
    unfold scanLe
    rw [hxy]
    decide

/-- Witness for C2: on the spec's scenario the named device sorts first even
though the unnamed one has the stronger signal, and the output is a
permutation of the input. -/
theorem scan_sort_spec_witness :
    (collect_devices [rawAA, rawBB]).Perm (scanInfos [rawAA, rawBB]) ∧
    collect_devices [rawAA, rawBB] =
      [({ addr := "AA", name := some "Tag", rssi := some (-40) }, 0),
       ({ addr := "BB", name := none, rssi := some (-30) }, 1)] :=
  ⟨(scan_sort_spec [rawAA, rawBB]).1, by decide⟩

/-- C2 counterexample: with an unnamed device at RSSI −1000 and an unnamed
device with no RSSI, the code substitutes −999 (not the weakest possible
value) and sorts the missing-RSSI device first; the claimed ordering would
put the −1000 device first. -/
theorem scan_sort_counterexample :
    collect_devices [rawCexA, rawCexB] =
      [({ addr := "BB", name := none, rssi := none }, 1),
       ({ addr := "AA", name := none, rssi := some (-1000) }, 0)] ∧
    ¬ (collect_devices [rawCexA, rawCexB]).Pairwise
        (fun a b => spec_claim_le a.1 b.1) := by
  decide

/-- C3: SetMask while connected performs exactly one confirmed
(write-with-response) write of the single byte m, then one log carrying the
written value on success or the error on failure, with the stored connection
pair unchanged; SetMask while disconnected performs no write, emits exactly
one "ignoring" log, and changes nothing (in particular nothing is queued). -/
theorem setmask_spec (st : WorkerState) (o : Oracle) (m : Nat) :
    (∀ pid ch, st.connected = some (pid, ch) →
      (o.writeRes = .ok () →
        step o st (.setMask m) =
          ([.call (.writeCall pid ch [m] true), .ev (.log (.wroteMask m))], .ok st)) ∧
      (∀ e, o.writeRes = .error e →
        step o st (.setMask m) =
          ([.call (.writeCall pid ch [m] true), .ev (.log (.writeFailed e))], .ok st))) ∧
    (st.connected = none →
      step o st (.setMask m) = ([.ev (.log .notConnectedIgnoringWrite)], .ok st)) := by
  constructor
  · intro pid ch hc
    constructor
    · intro hw
      simp [step, hc, hw]
    · intro e hw
      simp [step, hc, hw]
  · intro hc
    simp [step, hc]

/-- Witness for C3: SetMask(1) while connected writes [1] with response and
logs the written value. -/
theorem setmask_spec_witness :
    step okOracle stConn (.setMask 1) =
      ([.call (.writeCall 3 chLed [1] true), .ev (.log (.wroteMask 1))], .ok stConn) :=
  ((setmask_spec stConn okOracle 1).1 3 chLed rfl).1 rfl

/-- C5 amended: connecting to a scanned address whose discovered
characteristics lack the LED UUID logs the missing characteristic,
force-disconnects, emits ConnectionState(false), and leaves the stored
connection pair exactly as it was (no new pair is stored). -/
theorem connect_missing_char_spec (st : WorkerState) (o : Oracle) (addr : String)
    (info : DeviceInfo) (pid : Nat)
    (hfind : st.last_scan.find? (fun ip => ip.1.addr == addr) = some (info, pid))
    (hc : o.connectRes = .ok ()) (hd : o.discoverRes = .ok ())
    (hch : o.characteristics.find? (fun c => c.uuid == LED_CHAR_UUID) = none) :
    step o st (.connectCmd addr) =
      ([.ev (.log (.connectRequested addr)), .call (.connectCall pid),
        .call (.discoverServicesCall pid), .ev (.log .ledCharNotFound),
        .call (.disconnectCall pid), .ev (.connected false)], .ok st) := by
  simp [step, hfind, hc, hd, hch]

/-- Witness for C5: with a fresh (unconnected) worker, the missing-LED-UUID
path emits the log, the force-disconnect and ConnectionState(false), and
stores nothing. -/
theorem connect_missing_char_spec_witness :
    step oracleNoLedChar ⟨[(devAA, 0)], none⟩ (.connectCmd "AA") =
      ([.ev (.log (.connectRequested "AA")), .call (.connectCall 0),
        .call (.discoverServicesCall 0), .ev (.log .ledCharNotFound),
        .call (.disconnectCall 0), .ev (.connected false)], .ok ⟨[(devAA, 0)], none⟩) :=
  connect_missing_char_spec ⟨[(devAA, 0)], none⟩ oracleNoLedChar "AA" devAA 0
    (by decide) rfl rfl (by decide)

/-- C5 counterexample: if a connection pair is already stored, the
missing-LED-UUID path emits ConnectionState(false) but a connection pair is
still stored afterwards — the command does not leave the worker with no
stored pair. -/
theorem connect_missing_char_counterexample :
    (step oracleNoLedChar stAlreadyConnected (.connectCmd "AA")).2 =
      .ok stAlreadyConnected ∧
    stAlreadyConnected.connected = some (7, chLed) ∧
    Obs.ev (.connected false) ∈ (step oracleNoLedChar stAlreadyConnected (.connectCmd "AA")).1 ∧
    Obs.ev (.log .ledCharNotFound) ∈ (step oracleNoLedChar stAlreadyConnected (.connectCmd "AA")).1 := by
  refine ⟨rfl, rfl, ?_, ?_⟩ <;> decide

/-- C7 amended: a Connect for an address not in the last scan set opens no
link, stores nothing, changes no state — and emits exactly two log events
(the connect-request line and the rejection line), not one. -/
theorem connect_unknown_addr_spec (st : WorkerState) (o : Oracle) (addr : String)
    (h : st.last_scan.find? (fun ip => ip.1.addr == addr) = none) :
    step o st (.connectCmd addr) =
      ([.ev (.log (.connectRequested addr)), .ev (.log .notInLastScanList)], .ok st) := by
  simp [step, h]

/-- Witness for C7: rejecting Connect("XX") against an empty scan set. -/
theorem connect_unknown_addr_spec_witness :
    step okOracle stEmpty (.connectCmd "XX") =
      ([.ev (.log (.connectRequested "XX")), .ev (.log .notInLastScanList)], .ok stEmpty) :=
  connect_unknown_addr_spec stEmpty okOracle "XX" rfl

/-- C7 counterexample: the rejected Connect emits two log events, not exactly
one. -/
theorem connect_unknown_addr_counterexample :
    logEvents (step okOracle stEmpty (.connectCmd "XX")).1 =
      [.connectRequested "XX", .notInLastScanList] ∧
    (logEvents (step okOracle stEmpty (.connectCmd "XX")).1).length ≠ 1 := by
  decide

/-- C8 amended: a successful Scan makes the worker emit exactly one
ScanResults event carrying the full sorted list (preceded by the "Scanning"
log and the stack calls); the log line summarizing the device count is
produced by the UI when it consumes that ScanResults event, not emitted by
the worker. -/
theorem scan_success_spec (st : WorkerState) (o : Oracle) (peris : List RawPeripheral)
    (hs : o.startScanRes = .ok ()) (hp : o.peripheralsRes = .ok peris) :
    step o st .scan =
      ([.ev (.log .scanning), .call .startScanCall, .call .enumeratePeripherals,
        .ev (.scanResults ((collect_devices peris).map Prod.fst))],
       .ok { st with last_scan := collect_devices peris }) ∧
    (∀ ui : UiState, (uiHandle ui (.scanResults ((collect_devices peris).map Prod.fst))).logPane =
      ui.logPane ++ [.scanSummary ((collect_devices peris).map Prod.fst).length]) := by
  constructor
  · simp [step, hs, hp]
  · intro ui
    rfl

/-- Witness for C8 at an empty adapter: one ScanResults event, and the UI
appends one "0 device(s)" summary on consuming it. -/
theorem scan_success_spec_witness :
    step okOracle stEmpty .scan =
      ([.ev (.log .scanning), .call .startScanCall, .call .enumeratePeripherals,
        .ev (.scanResults ((collect_devices []).map Prod.fst))],
       .ok { stEmpty with last_scan := collect_devices [] }) ∧
    (uiHandle ⟨[], false, false, []⟩
        (.scanResults ((collect_devices []).map Prod.fst))).logPane =
      [.scanSummary ((collect_devices ([] : List RawPeripheral)).map Prod.fst).length] := by
  have h := scan_success_spec stEmpty okOracle [] rfl rfl
  refine ⟨h.1, ?_⟩
  have h2 := h.2 ⟨[], false, false, []⟩
  simpa using h2

/-- C8 counterexample: for a successful Scan the worker's event stream ends
with the ScanResults event — no Log event summarizing the count follows it. -/
theorem scan_events_counterexample :
    events (step okOracle stEmpty .scan).1 = [.log .scanning, .scanResults []] ∧
    (events (step okOracle stEmpty .scan).1).getLast? = some (.scanResults []) := by
  decide

theorem step_error_trace (st : WorkerState) (c : Cmd) (o : Oracle) (e : String) (t : List Obs)
    (h : step o st c = (t, .error e)) :
    t = [.ev (.log .scanning), .call .startScanCall] ∨
    t = [.ev (.log .scanning), .call .startScanCall, .call .enumeratePeripherals] ∨
    (∃ addr pid, t = [.ev (.log (.connectRequested addr)), .call (.connectCall pid)]) ∨
    (∃ addr pid, t = [.ev (.log (.connectRequested addr)), .call (.connectCall pid),
                      .call (.discoverServicesCall pid)]) := by
  cases c with
  | scan =>
      rcases hs : o.startScanRes with es | u
      · simp [step, hs] at h
        exact Or.inl h.1.symm
      · rcases hp : o.peripheralsRes with ep | peris
        · simp [step, hs, hp] at h
          exact Or.inr (Or.inl h.1.symm)
        · simp [step, hs, hp] at h
  | connectCmd addr =>
      rcases hf : st.last_scan.find? (fun ip => ip.1.addr == addr) with _ | ⟨info, pid⟩
      · simp [step, hf] at h
      · rcases hc : o.connectRes with ec | u
        · simp [step, hf, hc] at h
          exact Or.inr (Or.inr (Or.inl ⟨addr, pid, h.1.symm⟩))
        · rcases hd : o.discoverRes with ed | v
          · simp [step, hf, hc, hd] at h
            exact Or.inr (Or.inr (Or.inr ⟨addr, pid, h.1.symm⟩))
          · rcases hch : o.characteristics.find? (fun ch => ch.uuid == LED_CHAR_UUID)
              with _ | ch
            · simp [step, hf, hc, hd, hch] at h
            · simp [step, hf, hc, hd, hch] at h
  | disconnectCmd =>
      rcases hcn : st.connected with _ | ⟨pid, ch⟩ <;> simp [step, hcn] at h
  | setMask m =>
      rcases hcn : st.connected with _ | ⟨pid, ch⟩
      · simp [step, hcn] at h
      · rcases hw : o.writeRes with ew | u <;> simp [step, hcn, hw] at h

/-- C10: when start_scan, connect, or discover_services (or peripheral
enumeration) returns an error, the worker loop returns that error: the
remaining queued commands are never processed, and for the failed command no
ConnectionState event and no explanatory Log event is emitted — the only
events already sent are the progress logs ("Scanning" or the connect
request). -/
theorem fatal_error_spec (st : WorkerState) (c : Cmd) (o : Oracle) (e : String)
    (t : List Obs) (h : step o st c = (t, .error e)) :
    (∀ rest, runWorker st ((c, o) :: rest) = (t, .error e)) ∧
    (∀ b, Obs.ev (.connected b) ∉ t) ∧
    (∀ devs, Obs.ev (.scanResults devs) ∉ t) ∧
    (∀ lm, Obs.ev (.log lm) ∈ t → lm = .scanning ∨ ∃ a, lm = .connectRequested a) := by
  refine ⟨?_, ?_, ?_, ?_⟩
  · intro rest
    simp [runWorker, h]
  · intro b
    rcases step_error_trace st c o e t h with ht | ht | ⟨a, p, ht⟩ | ⟨a, p, ht⟩ <;>
      subst ht <;> simp
  · intro devs
    rcases step_error_trace st c o e t h with ht | ht | ⟨a, p, ht⟩ | ⟨a, p, ht⟩ <;>
      subst ht <;> simp
  · intro lm hm
    rcases step_error_trace st c o e t h with ht | ht | ⟨a, p, ht⟩ | ⟨a, p, ht⟩ <;>
      subst ht <;> simp at hm <;> simp [hm]

/-- Witness for C10: a Scan whose start_scan fails mid-stream kills the loop;
the queued SetMask(1) after it is never processed and contributes nothing. -/
theorem fatal_error_spec_witness :
    runWorker stEmpty [(.scan, failingOracle), (.setMask 1, okOracle)] =
      ([.ev (.log .scanning), .call .startScanCall], .error "adapterGone") ∧
    Obs.ev (.connected true) ∉ [Obs.ev (.log .scanning), Obs.call .startScanCall] := by
  have h := fatal_error_spec stEmpty .scan failingOracle "adapterGone"
    [.ev (.log .scanning), .call .startScanCall] rfl
  exact ⟨h.1 [(.setMask 1, okOracle)], h.2.1 true⟩

end Gui
